import Mathlib

/-!
Shallow embedding of `src/alg.py` (class `SimuladorCaidaLibre`), the free-fall
kinematics simulator. Floating-point (`float`) arithmetic of the source is
modelled by the real numbers, following the closed-form formulas verbatim.
The engine state is the record of the instance attributes set in `__init__`;
each method becomes a function on that record. The `while` loop of
`simular_caida` is embedded as a fuel-indexed unrolling (`bucle_simulacion`):
every terminating execution of the source loop is one of its finite
unrollings. `print` calls and the advisory `time.sleep` pacing are I/O with
no effect on the engine state and are omitted.
-/

noncomputable section

namespace CaidaLibre

/-- The height display units: the keys `'m'`, `'ft'`, `'cm'` of the
`factores_conversion` dictionary built in `__init__`. -/
inductive Unidad where
  | m
  | ft
  | cm
deriving DecidableEq

/-- The unit-conversion factors dictionary `factores_conversion` from
`__init__`: metre 1, foot 3.28084, centimetre 100. -/
def factores_conversion : Unidad → ℝ
  | .m => 1
  | .ft => 3.28084
  | .cm => 100

/-- The mutable instance state of `SimuladorCaidaLibre`: the attributes
assigned in `__init__` (lines 20-29 of `src/alg.py`). The trajectory is the
pair of parallel lists `tiempos` / `alturas`. -/
structure SimuladorCaidaLibre where
  altura_inicial : ℝ
  unidad_altura : Unidad
  gravedad : ℝ
  tiempo : ℝ
  en_ejecucion : Bool
  tiempos : List ℝ
  alturas : List ℝ

/-- The state produced by `__init__`: height 100 m, unit metres,
gravity 9.8 m/s², elapsed time 0, not running, empty trajectory. -/
def init : SimuladorCaidaLibre :=
  { altura_inicial := 100
    unidad_altura := .m
    gravedad := 9.8
    tiempo := 0
    en_ejecucion := false
    tiempos := []
    alturas := [] }

/-- `calcular_tiempo_total`: `math.sqrt(2 * self.altura_inicial / self.gravedad)`. -/
def calcular_tiempo_total (s : SimuladorCaidaLibre) : ℝ :=
  Real.sqrt (2 * s.altura_inicial / s.gravedad)

/-- `convertir_altura`: `altura_metros * self.factores_conversion[unidad_destino]`. -/
def convertir_altura (s : SimuladorCaidaLibre) (altura_metros : ℝ)
    (unidad_destino : Unidad) : ℝ :=
  altura_metros * factores_conversion unidad_destino

/-- `calcular_posicion_actual`:
`max(0, self.altura_inicial - 0.5 * self.gravedad * tiempo_actual ** 2)`. -/
def calcular_posicion_actual (s : SimuladorCaidaLibre) (tiempo_actual : ℝ) : ℝ :=
  max 0 (s.altura_inicial - 0.5 * s.gravedad * tiempo_actual ^ 2)

/-- `calcular_velocidad_actual`: `self.gravedad * tiempo_actual`. -/
def calcular_velocidad_actual (s : SimuladorCaidaLibre) (tiempo_actual : ℝ) : ℝ :=
  s.gravedad * tiempo_actual

/-- The `while` loop of `simular_caida` (lines 91-113), as a fuel-indexed
unrolling returning the `(tiempo, altura)` samples appended to
`self.tiempos` / `self.alturas`, in order. One iteration: if
`tiempo_actual <= duracion_total` (the `self.en_ejecucion` conjunct of the
loop condition is constantly `True` during the sequential call, having been
set on line 79 and not written inside the loop), append the sample
`(tiempo_actual, calcular_posicion_actual tiempo_actual)`; if that height is
`<= 0` the loop `break`s, otherwise it continues at
`tiempo_actual + intervalo`. The computed `velocidad_actual` is only
printed, never stored, so it does not appear in the samples. -/
def bucle_simulacion (s : SimuladorCaidaLibre) (duracion_total intervalo : ℝ) :
    ℕ → ℝ → List (ℝ × ℝ)
  | 0, _ => []
  | fuel + 1, tiempo_actual =>
    if tiempo_actual ≤ duracion_total then
      (tiempo_actual, calcular_posicion_actual s tiempo_actual) ::
        (if calcular_posicion_actual s tiempo_actual ≤ 0 then []
         else bucle_simulacion s duracion_total intervalo fuel (tiempo_actual + intervalo))
    else []

/-- The samples recorded by one call `simular_caida(duracion_total, intervalo)`:
the loop run from `tiempo_actual = 0` with the duration defaulted to
`calcular_tiempo_total` when absent (lines 76-77). The fuel
`⌊duracion_total / intervalo⌋ + 2` covers every iteration a terminating
execution of the source loop performs when `intervalo > 0`. -/
def datos_simulacion (s : SimuladorCaidaLibre) (duracion_total : Option ℝ)
    (intervalo : ℝ) : List (ℝ × ℝ) :=
  bucle_simulacion s (duracion_total.getD (calcular_tiempo_total s)) intervalo
    (Nat.floor (duracion_total.getD (calcular_tiempo_total s) / intervalo) + 2) 0

/-- `simular_caida`: sets `en_ejecucion := True`, clears `tiempos`/`alturas`,
runs the stepping loop which appends the samples, then sets
`en_ejecucion := False` (line 115). The net state after the call returns:
trajectory replaced by the loop's samples, running flag `False`, all other
attributes untouched. -/
def simular_caida (s : SimuladorCaidaLibre) (duracion_total : Option ℝ)
    (intervalo : ℝ) : SimuladorCaidaLibre :=
  { s with
    en_ejecucion := false
    tiempos := (datos_simulacion s duracion_total intervalo).map Prod.fst
    alturas := (datos_simulacion s duracion_total intervalo).map Prod.snd }

/-- `pausar_simulacion`: unconditionally `self.en_ejecucion = False`. -/
def pausar_simulacion (s : SimuladorCaidaLibre) : SimuladorCaidaLibre :=
  { s with en_ejecucion := false }

/-- `reiniciar_simulacion`: calls `pausar_simulacion`, then zeroes `tiempo`
and empties `tiempos` and `alturas`. -/
def reiniciar_simulacion (s : SimuladorCaidaLibre) : SimuladorCaidaLibre :=
  { pausar_simulacion s with
    tiempo := 0
    tiempos := []
    alturas := [] }

/-! ### Helper lemmas -/

/-- `calcular_posicion_actual` is antitone in time on `t ≥ 0` when gravity is
nonnegative. -/
theorem posicion_antitone (s : SimuladorCaidaLibre) (hg : 0 ≤ s.gravedad)
    {t₁ t₂ : ℝ} (ht₁ : 0 ≤ t₁) (h₁₂ : t₁ ≤ t₂) :
    calcular_posicion_actual s t₂ ≤ calcular_posicion_actual s t₁ := by
  unfold calcular_posicion_actual
  have hsq : t₁ ^ 2 ≤ t₂ ^ 2 := pow_le_pow_left₀ ht₁ h₁₂ 2
  exact max_le_max le_rfl (by nlinarith)

/-- Claim-first helper: whatever the fuel, a nonempty unrolling of the loop
starts with the sample taken at its starting time. -/
theorem bucle_head (s : SimuladorCaidaLibre) (D dt : ℝ) (fuel : ℕ) (t : ℝ) :
    ∀ p ∈ (bucle_simulacion s D dt fuel t).head?,
      p = (t, calcular_posicion_actual s t) := by
  cases fuel with
  | zero => simp [bucle_simulacion]
  | succ n =>
    by_cases hD : t ≤ D
    · simp [bucle_simulacion, hD]
    · simp [bucle_simulacion, hD]

/-- If there is fuel and the loop condition holds at entry, the loop records
at least one sample. -/
theorem bucle_ne_nil (s : SimuladorCaidaLibre) (D dt : ℝ) (fuel : ℕ) (t : ℝ)
    (hf : fuel ≠ 0) (ht : t ≤ D) :
    bucle_simulacion s D dt fuel t ≠ [] := by
  cases fuel with
  | zero => exact absurd rfl hf
  | succ n => simp [bucle_simulacion, ht]

/-! ### Claims -/

/-- Claim C1: for every configured initial height and gravity and every
time `t ≥ 0`, `calcular_posicion_actual` returns
`max(0, altura_inicial - 0.5 * gravedad * t²)`, and the result is never
negative. -/
theorem posicion_actual_spec (s : SimuladorCaidaLibre) (t : ℝ) (ht : 0 ≤ t) :
    calcular_posicion_actual s t =
      max 0 (s.altura_inicial - 0.5 * s.gravedad * t ^ 2) ∧
    0 ≤ calcular_posicion_actual s t :=
  ⟨rfl, le_max_left 0 _⟩

/-- Witness for C1 at the `__init__` state and `t = 1`. -/
theorem posicion_actual_spec_witness :
    (0 : ℝ) ≤ 1 ∧
    (calcular_posicion_actual init 1 =
        max 0 (init.altura_inicial - 0.5 * init.gravedad * 1 ^ 2) ∧
      0 ≤ calcular_posicion_actual init 1) :=
  ⟨by norm_num, posicion_actual_spec init 1 (by norm_num)⟩

/-- Claim C2: for configured height and gravity both positive,
`calcular_tiempo_total` returns `√(2·altura_inicial/gravedad)`. -/
theorem tiempo_total_spec (s : SimuladorCaidaLibre)
    (hh : 0 < s.altura_inicial) (hg : 0 < s.gravedad) :
    calcular_tiempo_total s = Real.sqrt (2 * s.altura_inicial / s.gravedad) :=
  rfl

/-- Witness for C2 at the `__init__` state (height 100 > 0, gravity 9.8 > 0). -/
theorem tiempo_total_spec_witness :
    0 < init.altura_inicial ∧ 0 < init.gravedad ∧
    calcular_tiempo_total init =
      Real.sqrt (2 * init.altura_inicial / init.gravedad) :=
  ⟨by norm_num [init], by norm_num [init],
    tiempo_total_spec init (by norm_num [init]) (by norm_num [init])⟩

/-- Claim C3 counterexample: `simular_caida` contains no interval validation.
At the `__init__` state with duration 1 and `intervalo = 0`, no error is
reported: the stepping loop is entered and its first iteration — which the
source performs in full before the first `time.sleep` — records the sample
`(0, 100)` in the trajectory, which was empty before the call, so the engine
state is changed. (One unrolling of the loop is stated, since with
`intervalo = 0` the source loop repeats at `t = 0` forever and the call
never completes.) -/
theorem simular_caida_sin_validacion :
    bucle_simulacion init 1 0 1 0 = [(0, 100)] ∧ init.tiempos = [] := by
  refine ⟨?_, rfl⟩
  have h1 : calcular_posicion_actual init 0 = 100 := by
    simp only [calcular_posicion_actual, init]
    rw [show (100 : ℝ) - 0.5 * 9.8 * 0 ^ 2 = 100 by norm_num]
    exact max_eq_right (by norm_num)
  rw [show (1 : ℕ) = 0 + 1 from rfl]
  simp only [bucle_simulacion, h1]
  norm_num

/-- Claim C3 amended: `simular_caida` performs no validation of the step
interval. For every state, nonnegative duration and `intervalo ≤ 0`, instead
of failing with `InvalidInterval` it enters the stepping loop, whose first
iteration records the sample `(0, calcular_posicion_actual 0)` in the
trajectory, changing the engine state; the call then never completes
normally (with `intervalo = 0` the loop repeats at `t = 0` forever; with
`intervalo < 0` the first `time.sleep` raises, leaving `en_ejecucion`
`True`). The recorded-first-sample part is stated on every nonzero-fuel
unrolling of the loop, the part of the embedding that is faithful on this
non-returning domain. -/
theorem simular_caida_intervalo_no_positivo (s : SimuladorCaidaLibre)
    (d intervalo : ℝ) (fuel : ℕ) (hd : 0 ≤ d) (hi : intervalo ≤ 0)
    (hf : fuel ≠ 0) :
    (bucle_simulacion s d intervalo fuel 0).head? =
      some (0, calcular_posicion_actual s 0) := by
  cases fuel with
  | zero => exact absurd rfl hf
  | succ n => simp [bucle_simulacion, hd]

/-- Witness for the amended C3 at the `__init__` state, duration 1,
interval 0, one unrolling. -/
theorem simular_caida_intervalo_no_positivo_witness :
    (0 : ℝ) ≤ 1 ∧ (0 : ℝ) ≤ 0 ∧ (1 : ℕ) ≠ 0 ∧
    (bucle_simulacion init 1 0 1 0).head? =
      some (0, calcular_posicion_actual init 0) :=
  ⟨by norm_num, le_rfl, by norm_num,
    simular_caida_intervalo_no_positivo init 1 0 1 (by norm_num) le_rfl
      (by norm_num)⟩

/-- The loop invariant behind C4: with positive gravity, a positive step and
a nonnegative starting time, every unrolling of the stepping loop is a chain
in which consecutive samples have strictly increasing time, non-increasing
height, and every sample that has a successor has strictly positive height
(so once a height-0 sample is recorded the run stops). -/
theorem bucle_chain (s : SimuladorCaidaLibre) (D dt : ℝ)
    (hg : 0 < s.gravedad) (hdt : 0 < dt) :
    ∀ fuel : ℕ, ∀ t : ℝ, 0 ≤ t →
      List.Chain' (fun p q : ℝ × ℝ => p.1 < q.1 ∧ q.2 ≤ p.2 ∧ 0 < p.2)
        (bucle_simulacion s D dt fuel t) := by
  intro fuel
  induction fuel with
  | zero => intro t ht; simp [bucle_simulacion]
  | succ n ih =>
    intro t ht
    by_cases hD : t ≤ D
    · by_cases ha : calcular_posicion_actual s t ≤ 0
      · simp [bucle_simulacion, hD, ha]
      · have hrw : bucle_simulacion s D dt (n + 1) t =
            (t, calcular_posicion_actual s t) ::
              bucle_simulacion s D dt n (t + dt) := by
          simp [bucle_simulacion, hD, ha]
        rw [hrw, List.chain'_cons']
        refine ⟨?_, ih (t + dt) (by linarith)⟩
        intro q hq
        have hq' := bucle_head s D dt n (t + dt) q hq
        subst hq'
        refine ⟨by simpa using hdt, ?_, lt_of_not_le ha⟩
        exact posicion_antitone s hg.le ht (by linarith)
    · simp [bucle_simulacion, hD]

/-- Claim C4: for every run of `simular_caida` with positive gravity and a
positive step interval, the recorded trajectory has strictly increasing
times, non-increasing heights, and every sample followed by another has
strictly positive height — once a height-0 sample is recorded, no further
samples are appended in that run. -/
theorem trayectoria_invariantes (s : SimuladorCaidaLibre) (d : Option ℝ)
    (intervalo : ℝ) (hg : 0 < s.gravedad) (hi : 0 < intervalo) :
    List.Chain' (· < ·) (simular_caida s d intervalo).tiempos ∧
    List.Chain' (fun a b : ℝ => b ≤ a) (simular_caida s d intervalo).alturas ∧
    List.Chain' (fun p _ : ℝ × ℝ => 0 < p.2)
      ((simular_caida s d intervalo).tiempos.zip
        (simular_caida s d intervalo).alturas) := by
  have h := bucle_chain s (d.getD (calcular_tiempo_total s)) intervalo hg hi
    (Nat.floor (d.getD (calcular_tiempo_total s) / intervalo) + 2) 0 le_rfl
  have hdatos : List.Chain' (fun p q : ℝ × ℝ => p.1 < q.1 ∧ q.2 ≤ p.2 ∧ 0 < p.2)
      (datos_simulacion s d intervalo) := h
  have hzip : (simular_caida s d intervalo).tiempos.zip
      (simular_caida s d intervalo).alturas = datos_simulacion s d intervalo := by
    simp only [simular_caida]
    rw [List.zip_map']
    simp
  refine ⟨?_, ?_, ?_⟩
  · simp only [simular_caida]
    rw [List.chain'_map]
    exact hdatos.imp fun a b hab => hab.1
  · simp only [simular_caida]
    rw [List.chain'_map]
    exact hdatos.imp fun a b hab => hab.2.1
  · rw [hzip]
    exact hdatos.imp fun a b hab => hab.2.2

/-- Witness for C4 at the `__init__` state, duration 1, interval 1. -/
theorem trayectoria_invariantes_witness :
    0 < init.gravedad ∧ (0 : ℝ) < 1 ∧
    (List.Chain' (· < ·) (simular_caida init (some 1) 1).tiempos ∧
      List.Chain' (fun a b : ℝ => b ≤ a) (simular_caida init (some 1) 1).alturas ∧
      List.Chain' (fun p _ : ℝ × ℝ => 0 < p.2)
        ((simular_caida init (some 1) 1).tiempos.zip
          (simular_caida init (some 1) 1).alturas)) :=
  ⟨by norm_num [init], by norm_num,
    trayectoria_invariantes init (some 1) 1 (by norm_num [init]) (by norm_num)⟩

/-- Claim C5: for configured height and gravity both positive,
`calcular_posicion_actual` is monotonically non-increasing on `t ≥ 0`, and
returns exactly 0 for every `t ≥ calcular_tiempo_total`. -/
theorem posicion_monotona_y_aterrizaje (s : SimuladorCaidaLibre)
    (hh : 0 < s.altura_inicial) (hg : 0 < s.gravedad) :
    (∀ t₁ t₂ : ℝ, 0 ≤ t₁ → t₁ ≤ t₂ →
      calcular_posicion_actual s t₂ ≤ calcular_posicion_actual s t₁) ∧
    (∀ t : ℝ, calcular_tiempo_total s ≤ t → calcular_posicion_actual s t = 0) := by
  constructor
  · intro t₁ t₂ ht₁ h₁₂
    exact posicion_antitone s hg.le ht₁ h₁₂
  · intro t ht
    have harg : 0 ≤ 2 * s.altura_inicial / s.gravedad := by positivity
    have hsq : 2 * s.altura_inicial / s.gravedad ≤ t ^ 2 := by
      calc 2 * s.altura_inicial / s.gravedad
          = Real.sqrt (2 * s.altura_inicial / s.gravedad) ^ 2 :=
            (Real.sq_sqrt harg).symm
        _ ≤ t ^ 2 := by
            have := pow_le_pow_left₀ (Real.sqrt_nonneg _) ht 2
            simpa [calcular_tiempo_total] using this
    have hle : 2 * s.altura_inicial ≤ t ^ 2 * s.gravedad :=
      (div_le_iff₀ hg).mp hsq
    have hneg : s.altura_inicial - 0.5 * s.gravedad * t ^ 2 ≤ 0 := by nlinarith
    exact max_eq_left hneg

/-- Witness for C5 at the `__init__` state: monotonicity at `t₁ = 1 ≤ 2 = t₂`
and the landing clamp at `t = calcular_tiempo_total` itself. -/
theorem posicion_monotona_y_aterrizaje_witness :
    0 < init.altura_inicial ∧ 0 < init.gravedad ∧
    calcular_posicion_actual init 2 ≤ calcular_posicion_actual init 1 ∧
    calcular_posicion_actual init (calcular_tiempo_total init) = 0 :=
  ⟨by norm_num [init], by norm_num [init],
    (posicion_monotona_y_aterrizaje init (by norm_num [init])
      (by norm_num [init])).1 1 2 (by norm_num) (by norm_num),
    (posicion_monotona_y_aterrizaje init (by norm_num [init])
      (by norm_num [init])).2 (calcular_tiempo_total init) le_rfl⟩

/-- Claim C6: `reiniciar_simulacion`, from any state, turns the running flag
off, empties both trajectory lists, zeroes the elapsed time, and leaves
`altura_inicial`, `gravedad` and `unidad_altura` unchanged. -/
theorem reiniciar_spec (s : SimuladorCaidaLibre) :
    (reiniciar_simulacion s).en_ejecucion = false ∧
    (reiniciar_simulacion s).tiempos = [] ∧
    (reiniciar_simulacion s).alturas = [] ∧
    (reiniciar_simulacion s).tiempo = 0 ∧
    (reiniciar_simulacion s).altura_inicial = s.altura_inicial ∧
    (reiniciar_simulacion s).gravedad = s.gravedad ∧
    (reiniciar_simulacion s).unidad_altura = s.unidad_altura := by
  simp [reiniciar_simulacion, pausar_simulacion]

/-- Claim C7: `convertir_altura` multiplies by the factor of the target unit:
identity for metres, 3.28084 for feet, 100 for centimetres; in particular
100 metres convert to 328.084 feet. -/
theorem convertir_altura_spec (s : SimuladorCaidaLibre) (h : ℝ) :
    convertir_altura s h .m = h ∧
    convertir_altura s h .ft = h * 3.28084 ∧
    convertir_altura s h .cm = h * 100 ∧
    convertir_altura s 100 .ft = 328.084 := by
  refine ⟨?_, rfl, rfl, ?_⟩
  · simp [convertir_altura, factores_conversion]
  · show (100 : ℝ) * 3.28084 = 328.084
    norm_num

/-- Claim C8: calling `pausar_simulacion` on an engine that is not running
(`en_ejecucion = false`, the Idle state) is observably a no-op: the state
after the call equals the state before it. -/
theorem pausar_idle_noop (s : SimuladorCaidaLibre)
    (h : s.en_ejecucion = false) : pausar_simulacion s = s := by
  unfold pausar_simulacion
  cases s
  simp_all

/-- Witness for C8 at the `__init__` state, which is Idle. -/
theorem pausar_idle_noop_witness :
    init.en_ejecucion = false ∧ pausar_simulacion init = init :=
  ⟨rfl, pausar_idle_noop init rfl⟩

/-- Claim C9: whenever `simular_caida` returns — by landing, by exhausting
the duration, or after any finite number of loop iterations — the running
flag `en_ejecucion` is `false`. -/
theorem simular_caida_termina_detenida (s : SimuladorCaidaLibre)
    (d : Option ℝ) (intervalo : ℝ) :
    (simular_caida s d intervalo).en_ejecucion = false :=
  rfl

/-- Claim C10: after construction, after any `simular_caida` call and after
any `reiniciar_simulacion` call, the trajectory lists `tiempos` and
`alturas` have equal length. -/
theorem trayectoria_longitudes_iguales :
    init.tiempos.length = init.alturas.length ∧
    (∀ (s : SimuladorCaidaLibre) (d : Option ℝ) (intervalo : ℝ),
      (simular_caida s d intervalo).tiempos.length =
        (simular_caida s d intervalo).alturas.length) ∧
    (∀ s : SimuladorCaidaLibre,
      (reiniciar_simulacion s).tiempos.length =
        (reiniciar_simulacion s).alturas.length) := by
  refine ⟨rfl, fun s d intervalo => ?_, fun s => rfl⟩
  simp [simular_caida]

end CaidaLibre
